import Mathlib

/-!
Verification development for the Baltic_Tasks repository.

This file gives a shallow embedding of the two Python scripts
(`src/task1/task1.py`, an aFRR/imbalance data pipeline, and
`src/task2/task2.py`, a CGMES XML analyzer) and proves or refutes the
frozen specification claims about them.

Modelling conventions:
* Python strings are `String`, `None`-able values are `Option`,
  numeric values (Python floats, restricted to the decimal literals the
  scripts actually consume) are `ℚ`.
* Python exceptions are modelled with `Except PyErr`; a statement such as
  `f x = .error .typeError` means the Python code raises `TypeError` at
  that point.
* Python truthiness of optional strings (`if s:`) is `pyTruthyOptStr`;
  truthiness of an optional float (`if v:`) is false for `None` and `0.0`.
* An XML document is flattened to the shape the CGMES EQ profile uses:
  a root element whose children are typed `cim:` elements, whose own
  children are leaf property elements (text or `rdf:resource`).
-/

/-! ## Python string primitives -/

/-- `needle.isPrefixOf`-based substring test: Lean model of Python's
`needle in hay` for strings (checked at every suffix of `hay`). -/
def listContains (needle : List Char) : List Char → Bool
  | [] => needle.isEmpty
  | c :: t => needle.isPrefixOf (c :: t) || listContains needle t

/-- Python `needle in hay` on strings. -/
def pyIn (needle hay : String) : Bool :=
  listContains needle.toList hay.toList

/-- Fuel-driven split of a char list on a (non-empty) separator substring,
Python `s.split(sep)` semantics.  The fuel is at least the list length, so
the fuel-exhausted branch is never taken. -/
def splitSubFuel (sep : List Char) : Nat → List Char → List Char → List (List Char)
  | _, [], acc => [acc.reverse]
  | 0, rest, acc => [acc.reverse ++ rest]
  | fuel + 1, c :: t, acc =>
    if sep.isPrefixOf (c :: t) then
      acc.reverse :: splitSubFuel sep fuel (List.drop sep.length (c :: t)) []
    else
      splitSubFuel sep fuel t (c :: acc)

/-- Python `s.split(sep)` for a non-empty separator. -/
def pySplit (s sep : String) : List String :=
  (splitSubFuel sep.toList (s.toList.length + 1) s.toList []).map String.mk

/-- ASCII whitespace used by Python's `float`/`int` stripping. -/
def isWs (c : Char) : Bool := c == ' ' || c == '\t' || c == '\n' || c == '\r'

/-- Strip leading and trailing whitespace from a char list. -/
def trimChars (l : List Char) : List Char :=
  ((l.dropWhile isWs).reverse.dropWhile isWs).reverse

/-- Emptiness of a string via its character data. -/
def strIsEmpty (s : String) : Bool := s.data.isEmpty

/-- Python `s.lower()` on the ASCII strings these scripts handle. -/
def pyLower (s : String) : String := String.mk (s.data.map Char.toLower)

/-- Digits of a decimal literal to a natural number; `none` if a
non-digit occurs.  The empty list gives `some 0` (callers guard). -/
def natOfDigits (l : List Char) : Option Nat :=
  l.foldlM (fun n c => if c.isDigit then some (10 * n + (c.toNat - 48)) else none) 0

/-- Unsigned decimal number (`"10"`, `"2.67"`, `"1."`, `".5"`) as a rational. -/
def pyFloatCore (l : List Char) : Option ℚ :=
  match splitSubFuel ['.'] (l.length + 1) l [] with
  | [i] =>
    if i.isEmpty then none
    else (natOfDigits i).map (fun n => (n : ℚ))
  | [i, f] =>
    if i.isEmpty && f.isEmpty then none
    else
      match natOfDigits i, natOfDigits f with
      | some ni, some nf => some ((ni : ℚ) + (nf : ℚ) / ((10 : ℚ) ^ f.length))
      | _, _ => none
  | _ => none

/-- Python `float(s)` on the decimal-literal fragment these scripts feed it
(optionally signed decimal numbers); `none` models `ValueError`. -/
def pyFloat (s : String) : Option ℚ :=
  match trimChars s.toList with
  | [] => none
  | '-' :: rest => (pyFloatCore rest).map (fun q => -q)
  | '+' :: rest => pyFloatCore rest
  | l => pyFloatCore l

/-- All-digit, non-empty parse used by `pyInt`. -/
def natOfDigitsStrict (l : List Char) : Option Nat :=
  if l.isEmpty then none else natOfDigits l

/-- Python `int(s)`; `none` models `ValueError`. -/
def pyInt (s : String) : Option Int :=
  match trimChars s.toList with
  | [] => none
  | '-' :: rest => (natOfDigitsStrict rest).map (fun n => -(n : Int))
  | '+' :: rest => (natOfDigitsStrict rest).map (fun n => (n : Int))
  | l => (natOfDigitsStrict l).map (fun n => (n : Int))

deriving instance DecidableEq for Except

/-! ## Python exceptions and truthiness -/

/-- The Python exceptions the embedded code can raise. -/
inductive PyErr where
  | typeError
  | valueError
  | zeroDivisionError
deriving DecidableEq, Repr

/-- Truthiness of an optional string: `None` and `""` are falsy. -/
def pyTruthyOptStr : Option String → Bool
  | none => false
  | some s => !(strIsEmpty s)

/-- Python `needle in hay` where `needle` may be `None`
(`None in str` raises `TypeError`). -/
def pyInOpt (needle : Option String) (hay : String) : Except PyErr Bool :=
  match needle with
  | none => .error .typeError
  | some n => .ok (pyIn n hay)

/-- Python `'tok' in x` where `x` may be `None` (raises `TypeError`). -/
def pyInOptHay (needle : String) (hay : Option String) : Except PyErr Bool :=
  match hay with
  | none => .error .typeError
  | some h => .ok (pyIn needle h)

/-- Python `float(s)` raising `ValueError` on an unparsable string. -/
def pyFloatE (s : String) : Except PyErr ℚ :=
  match pyFloat s with
  | some q => .ok q
  | none => .error .valueError

/-- Python `float(x)` where `x` may be `None` (raises `TypeError`). -/
def pyFloatOptE (x : Option String) : Except PyErr ℚ :=
  match x with
  | none => .error .typeError
  | some s => pyFloatE s

/-- Python `int(x)` where `x` may be `None`. -/
def pyIntOptE (x : Option String) : Except PyErr Int :=
  match x with
  | none => .error .typeError
  | some s =>
    match pyInt s with
    | some n => .ok n
    | none => .error .valueError

/-! ## Generic ordered-insertion helpers (Python `list.sort(key=...)`,
`max(..., key=...)`, dict key order) -/

/-- Stable insertion for `sSortBy`: `a` goes in front of the first element
whose key is not smaller than `a`'s key. -/
def sInsBy {α β : Type} [LinearOrder β] (key : α → β) (a : α) : List α → List α
  | [] => [a]
  | x :: l => if key x < key a then x :: sInsBy key a l else a :: x :: l

/-- Stable sort by key, model of Python's `list.sort(key=...)` /
`sort_index()` on the lists this file handles. -/
def sSortBy {α β : Type} [LinearOrder β] (key : α → β) : List α → List α
  | [] => []
  | a :: l => sInsBy key a (sSortBy key l)

/-- Python `max(l, key=key)` for non-empty `l`: iterates left to right and
replaces the current best only on a strictly larger key, hence returns the
first element attaining the maximum. -/
def pyMaxBy {α : Type} (key : α → ℚ) : List α → Option α
  | [] => none
  | a :: l => some (l.foldl (fun best x => if key best < key x then x else best) a)

/-- First-occurrence deduplication (Python dict key insertion order). -/
def firstKeysAux {α : Type} [DecidableEq α] : List α → List α → List α
  | [], _ => []
  | a :: l, seen => if a ∈ seen then firstKeysAux l seen else a :: firstKeysAux l (a :: seen)

/-- Keys of a Python dict built by repeated `d[k].append(...)`, in
insertion order. -/
def firstKeys {α : Type} [DecidableEq α] (l : List α) : List α :=
  firstKeysAux l []

/-! ## XML document model (task2) -/

/-- CIM namespace URI (`NAMESPACES['cim']`). -/
def cimNS : String := "http://iec.ch/TC57/CIM100#"

/-- RDF namespace URI (`NAMESPACES['rdf']`). -/
def rdfNS : String := "http://www.w3.org/1999/02/22-rdf-syntax-ns#"

/-- ElementTree fully qualified tag `{ns}name`. -/
def qtag (ns t : String) : String := "\x7b" ++ ns ++ "\x7d" ++ t

/-- Fully qualified CIM tag. -/
def cimTag (t : String) : String := qtag cimNS t

/-- A leaf property element: text content and/or an `rdf:resource`
attribute. -/
structure XChild where
  tag : String
  text : Option String
  resource : Option String
deriving DecidableEq, Repr

/-- A typed CGMES element (child of the RDF root). -/
structure XElem where
  tag : String
  text : Option String
  children : List XChild
deriving DecidableEq, Repr

/-- A parsed document: RDF root tag, typed elements in document order, and
the raw file content used by the question-6 raw-text scan (`none` models a
failing re-read of the file). -/
structure XDoc where
  rootTag : String
  elems : List XElem
  rawContent : Option String
deriving DecidableEq, Repr

/-- `get_element_text(element, tag_name)`: text of the first `cim:` child
with the given local tag, else `None`. -/
def get_element_text (e : XElem) (tagName : String) : Option String :=
  (e.children.find? (fun c => c.tag == cimTag tagName)).bind (fun c => c.text)

/-- `get_element_resource(element, tag_name)`: `rdf:resource` of the first
`cim:` child with the given local tag, else `None`. -/
def get_element_resource (e : XElem) (tagName : String) : Option String :=
  (e.children.find? (fun c => c.tag == cimTag tagName)).bind (fun c => c.resource)

/-- `root.findall('.//cim:T', NAMESPACES)` over the flattened document. -/
def findallCim (d : XDoc) (t : String) : List XElem :=
  d.elems.filter (fun e => e.tag == cimTag t)

/-- `tag.split('}')[-1]`. -/
def tagLocalName (t : String) : String := (pySplit t "\x7d").getLastD ""

/-- `ref.split('#_')[-1]`. -/
def refLastHashU (r : String) : String := (pySplit r "#_").getLastD ""

/-- `ref.split('#')[-1]`. -/
def refLastHash (r : String) : String := (pySplit r "#").getLastD ""

/-! ## task2: question 1 (generator table; reference handling lines 74-84) -/

/-- One `gen_units[mrid]` record from `analyze_question_1`.
`power_factor`/`rated_s` model dict keys that are absent (`none`) until the
synchronous-machine pass sets them (possibly to Python `None`, the inner
`Option`). -/
structure GenData where
  name : Option String
  max_p : ℚ
  min_p : ℚ
  nominal_p : ℚ
  power_factor : Option (Option ℚ)
  rated_s : Option (Option ℚ)
deriving DecidableEq, Repr

/-- Python dict assignment `gen_units[mrid] = v`: overwrite in place if the
key exists, else append (dicts preserve first-insertion order). -/
def dictInsert (tbl : List (Option String × GenData)) (k : Option String) (v : GenData) :
    List (Option String × GenData) :=
  if tbl.any (fun p => p.1 == k) then
    tbl.map (fun p => if p.1 == k then (k, v) else p)
  else tbl ++ [(k, v)]

/-- Body of the `GeneratingUnit` loop of `analyze_question_1`
(lines 58-72). -/
def q1_gen_step (acc : List (Option String × GenData) × ℚ) (gu : XElem) :
    Except PyErr (List (Option String × GenData) × ℚ) :=
  let mrid := get_element_text gu "IdentifiedObject.mRID"
  let name := get_element_text gu "IdentifiedObject.name"
  let max_p := get_element_text gu "GeneratingUnit.maxOperatingP"
  let min_p := get_element_text gu "GeneratingUnit.minOperatingP"
  let nominal_p := get_element_text gu "GeneratingUnit.nominalP"
  if pyTruthyOptStr max_p then
    match pyFloatE (max_p.getD "") with
    | .error e => .error e
    | .ok mp =>
      match (if pyTruthyOptStr min_p then pyFloatE (min_p.getD "") else .ok 0) with
      | .error e => .error e
      | .ok mn =>
        match (if pyTruthyOptStr nominal_p then pyFloatE (nominal_p.getD "") else .ok 0) with
        | .error e => .error e
        | .ok nom =>
          .ok (dictInsert acc.1 mrid ⟨name, mp, mn, nom, none, none⟩, acc.2 + mp)
  else .ok acc

/-- The `GeneratingUnit` loop of `analyze_question_1`. -/
def q1_gen_pass : List XElem → (List (Option String × GenData) × ℚ) →
    Except PyErr (List (Option String × GenData) × ℚ)
  | [], acc => .ok acc
  | gu :: rest, acc =>
    match q1_gen_step acc gu with
    | .error e => .error e
    | .ok acc' => q1_gen_pass rest acc'

/-- Body of the `SynchronousMachine` loop of `analyze_question_1`
(lines 75-84): resolve the `RotatingMachine.GeneratingUnit` reference by
stripping `#_` and looking the id up in the table; silently skip when it is
absent. -/
def q1_sync_step (tbl : List (Option String × GenData)) (sm : XElem) :
    Except PyErr (List (Option String × GenData)) :=
  let gen_unit_ref := get_element_resource sm "RotatingMachine.GeneratingUnit"
  let pf := get_element_text sm "RotatingMachine.ratedPowerFactor"
  let rated_s := get_element_text sm "RotatingMachine.ratedS"
  if pyTruthyOptStr gen_unit_ref then
    let gid := refLastHashU (gen_unit_ref.getD "")
    if tbl.any (fun p => p.1 == some gid) then
      match (if pyTruthyOptStr pf then (pyFloatE (pf.getD "")).map some else .ok none) with
      | .error e => .error e
      | .ok pfv =>
        match (if pyTruthyOptStr rated_s then (pyFloatE (rated_s.getD "")).map some else .ok none) with
        | .error e => .error e
        | .ok rsv =>
          .ok (tbl.map (fun p =>
            if p.1 == some gid then
              (p.1, ⟨p.2.name, p.2.max_p, p.2.min_p, p.2.nominal_p, some pfv, some rsv⟩)
            else p))
    else .ok tbl
  else .ok tbl

/-- The `SynchronousMachine` loop of `analyze_question_1`. -/
def q1_sync_pass : List XElem → List (Option String × GenData) →
    Except PyErr (List (Option String × GenData))
  | [], tbl => .ok tbl
  | sm :: rest, tbl =>
    match q1_sync_step tbl sm with
    | .error e => .error e
    | .ok tbl' => q1_sync_pass rest tbl'

/-- `analyze_question_1`: returns the generator table and the total
capacity (the printing is the external formatting layer). -/
def analyze_question_1 (d : XDoc) :
    Except PyErr (List (Option String × GenData) × ℚ) :=
  match q1_gen_pass (findallCim d "GeneratingUnit") ([], 0) with
  | .error e => .error e
  | .ok (tbl, total) =>
    match q1_sync_pass (findallCim d "SynchronousMachine") tbl with
    | .error e => .error e
    | .ok tbl' => .ok (tbl', total)

/-! ## task2: question 3 (transformer windings, lines 145-200) -/

/-- One winding record from `analyze_question_3` (lines 178-183). -/
structure Winding where
  endNo : Int
  u : ℚ
  s : ℚ
  conn : String
deriving DecidableEq, Repr

/-- Lines 171-183: build one winding record; `int(None)`/`float(None)`
raise `TypeError`, unparsable text raises `ValueError`. -/
def winding_of (tf_end : XElem) : Except PyErr Winding :=
  let end_num := get_element_text tf_end "TransformerEnd.endNumber"
  let rated_u := get_element_text tf_end "PowerTransformerEnd.ratedU"
  let rated_s := get_element_text tf_end "PowerTransformerEnd.ratedS"
  let connection := get_element_resource tf_end "PowerTransformerEnd.connectionKind"
  let connection_type :=
    if pyTruthyOptStr connection then refLastHash (connection.getD "") else "N/A"
  match pyIntOptE end_num with
  | .error e => .error e
  | .ok en =>
    match pyFloatOptE rated_u with
    | .error e => .error e
    | .ok uv =>
      match pyFloatOptE rated_s with
      | .error e => .error e
      | .ok sv => .ok ⟨en, uv, sv, connection_type⟩

/-- The `PowerTransformerEnd` collection loop (lines 167-183): keep the
ends whose `PowerTransformer` reference contains the transformer id
(Python substring `in`). -/
def winding_fold (tid : String) : List XElem → List Winding →
    Except PyErr (List Winding)
  | [], acc => .ok acc
  | te :: rest, acc =>
    let tf_ref := get_element_resource te "PowerTransformerEnd.PowerTransformer"
    if pyTruthyOptStr tf_ref && pyIn tid (tf_ref.getD "") then
      match winding_of te with
      | .error e => .error e
      | .ok w => winding_fold tid rest (acc ++ [w])
    else winding_fold tid rest acc

/-- Lines 167-185: collect and sort the windings of transformer `tid` by
end number ascending (`windings.sort(key=lambda x: x['end'])`). -/
def collect_windings (d : XDoc) (tid : String) : Except PyErr (List Winding) :=
  match winding_fold tid (findallCim d "PowerTransformerEnd") [] with
  | .error e => .error e
  | .ok ws => .ok (sSortBy (fun w => w.endNo) ws)

/-- Line 188: high/low-side classification by the 100-unit threshold. -/
def winding_side (w : Winding) : String :=
  if 100 < w.u then "YG" else "AG"

/-- Lines 191-196: the printed voltage ratio
`windings[0]['u'] / windings[1]['u']` of the end-number-sorted list, only
when at least two windings were collected; float division by zero raises
`ZeroDivisionError`. -/
def winding_ratio (ws : List Winding) : Except PyErr (Option ℚ) :=
  match ws with
  | w0 :: w1 :: _ =>
    if w1.u = 0 then .error .zeroDivisionError else .ok (some (w0.u / w1.u))
  | _ => .ok none

/-- Modelled from the spec: the Query Layer's winding summary computes
"the ratio of the two largest-rated-voltage ends"; the spec's example
(400 kV and 150 kV give ≈ 2.67) fixes the orientation larger/smaller.
Used only to compare the spec's wording with the code's ratio. -/
def spec_largest_ratio (ws : List Winding) : Option ℚ :=
  match sSortBy (fun w => -w.u) ws with
  | a :: b :: _ => some (a.u / b.u)
  | _ => none

/-- The transformer id hardcoded at line 151. -/
def transformer_id_q3 : String := "2184f365-8cd5-4b5d-8a28-9d68603bb6a4"

/-- `analyze_question_3`: the whole body runs only for the transformer
whose `mRID` equals the hardcoded id (with a `break` after it). -/
def analyze_question_3 (d : XDoc) :
    Except PyErr (Option (List Winding × Option ℚ)) :=
  match (findallCim d "PowerTransformer").find?
      (fun t => get_element_text t "IdentifiedObject.mRID" == some transformer_id_q3) with
  | none => .ok none
  | some _ =>
    match collect_windings d transformer_id_q3 with
    | .error e => .error e
    | .ok ws =>
      match winding_ratio ws with
      | .error e => .error e
      | .ok r => .ok (some (ws, r))

/-! ## task2: question 5 (slack detection, lines 286-323) -/

/-- One entry of the `generators` list (lines 305-309). -/
structure GenRec where
  name : Option String
  control : String
  max_p : ℚ
deriving DecidableEq, Repr

/-- Lines 299-309: build one generator record.  The control string is the
enum fragment after `#`, or `"Not specified"`; a missing or empty
`maxOperatingP` contributes `0`. -/
def gen_rec_of (gu : XElem) : Except PyErr GenRec :=
  let name := get_element_text gu "IdentifiedObject.name"
  let control_source := get_element_resource gu "GeneratingUnit.genControlSource"
  let max_p := get_element_text gu "GeneratingUnit.maxOperatingP"
  let control_str :=
    if pyTruthyOptStr control_source then refLastHash (control_source.getD "")
    else "Not specified"
  match (if pyTruthyOptStr max_p then pyFloatE (max_p.getD "") else .ok 0) with
  | .error e => .error e
  | .ok mp => .ok ⟨name, control_str, mp⟩

/-- The `GeneratingUnit` loop of `analyze_question_5`. -/
def gen_list_of : List XElem → Except PyErr (List GenRec)
  | [] => .ok []
  | gu :: rest =>
    match gen_rec_of gu with
    | .error e => .error e
    | .ok r =>
      match gen_list_of rest with
      | .error e => .error e
      | .ok rs => .ok (r :: rs)

/-- The `generators` list of `analyze_question_5`. -/
def build_generators (d : XDoc) : Except PyErr (List GenRec) :=
  gen_list_of (findallCim d "GeneratingUnit")

/-- Line 311: `'onAGC' in control_str or 'slack' in control_str.lower()`. -/
def is_slack (g : GenRec) : Bool :=
  pyIn "onAGC" g.control || pyIn "slack" (pyLower g.control)

/-- The generators printed with a `SLACK` marker. -/
def slack_flagged (gens : List GenRec) : List GenRec :=
  gens.filter is_slack

/-- Line 317: the "No explicit slack generator found!" warning is printed
iff no generator matched. -/
def no_slack_warning (gens : List GenRec) : Bool :=
  !(gens.any is_slack)

/-- Lines 317-323: when no slack was found and the list is non-empty, the
recommendation is `max(generators, key=lambda x: x['max_p'])`. -/
def slack_recommendation (gens : List GenRec) : Option GenRec :=
  if gens.any is_slack then none
  else pyMaxBy (fun g => g.max_p) gens

/-- `analyze_question_5`: generator list and optional recommendation. -/
def analyze_question_5 (d : XDoc) : Except PyErr (List GenRec × Option GenRec) :=
  match build_generators d with
  | .error e => .error e
  | .ok gens => .ok (gens, slack_recommendation gens)

/-! ## task2: question 6 (model error checks, lines 348-495) -/

/-- Check 1 (lines 357-370): every `(child.text, parent local tag)` pair
with `'mRID' in child.tag` and truthy text, walking `root.iter()` in
document order (the root's children are the typed elements; their children
are the leaf properties). -/
def mridOccurrences (d : XDoc) : List (String × String) :=
  (d.elems.filterMap (fun e =>
    if pyIn "mRID" e.tag then
      match e.text with
      | some t => if strIsEmpty t then none else some (t, tagLocalName d.rootTag)
      | none => none
    else none))
  ++ (d.elems.map (fun e =>
    e.children.filterMap (fun c =>
      if pyIn "mRID" c.tag then
        match c.text with
        | some t => if strIsEmpty t then none else some (t, tagLocalName e.tag)
        | none => none
      else none))).flatten

/-- The per-id occurrence list `mrids[id]` (parent local tags, in append
order). -/
def occTypes (d : XDoc) (id : String) : List String :=
  ((mridOccurrences d).filter (fun p => p.1 == id)).map (fun p => p.2)

/-- One `DUPLICATE mRID` finding (the source renders it as two consecutive
printed lines: the id, then the count and the `set` of parent types). -/
structure DupFinding where
  id : String
  types : List String
deriving DecidableEq, Repr

/-- Check 1: one error finding per id occurring more than once. -/
def duplicate_mrid_findings (d : XDoc) : List DupFinding :=
  (firstKeys ((mridOccurrences d).map (fun p => p.1))).filterMap
    (fun k => if 1 < (occTypes d k).length then some ⟨k, occTypes d k⟩ else none)

/-- Check 2 (lines 372-385): truthy `PowerTransformerEnd` mRIDs in
document order. -/
def tfEndMrids (d : XDoc) : List String :=
  (findallCim d "PowerTransformerEnd").filterMap (fun e =>
    match get_element_text e "IdentifiedObject.mRID" with
    | some m => if strIsEmpty m then none else some m
    | none => none)

/-- Names recorded under a given transformer-end mRID. -/
def tfEndNames (d : XDoc) (id : String) : List (Option String) :=
  ((findallCim d "PowerTransformerEnd").filter
    (fun e => get_element_text e "IdentifiedObject.mRID" == some id)).map
    (fun e => get_element_text e "IdentifiedObject.name")

/-- One `DUPLICATE PowerTransformerEnd mRID` finding. -/
structure TfEndDupFinding where
  id : String
  names : List (Option String)
deriving DecidableEq, Repr

/-- Check 2: one error finding per duplicated transformer-end mRID. -/
def duplicate_tfend_findings (d : XDoc) : List TfEndDupFinding :=
  (firstKeys (tfEndMrids d)).filterMap
    (fun k =>
      if 1 < (tfEndNames d k).length then some ⟨k, tfEndNames d k⟩ else none)

/-- One `ILLOGICAL LIMIT` finding of check 3 (lines 417-419), carrying
both cited values (the source renders it as two printed lines). -/
structure LimitFinding where
  tatl : ℚ
  patl : ℚ
deriving DecidableEq, Repr

/-- Lines 400, 412, 414: `float(limit_value) if limit_value else None`. -/
def limit_value_of (limit_value : Option String) : Except PyErr (Option ℚ) :=
  if pyTruthyOptStr limit_value then (pyFloatE (limit_value.getD "")).map some
  else .ok none

/-- Lines 404-415: find the first `OperationalLimitType` whose mRID equals
the stripped reference (`break` after it) and classify by the
case-sensitive substrings `PATL` / `TATL` of its name (`'PATL' in lt_name`
raises `TypeError` when the name is missing). -/
def classify_limit (d : XDoc) (limit_value : Option String) (lt_id : String)
    (acc : Option ℚ × Option ℚ) : Except PyErr (Option ℚ × Option ℚ) :=
  match (findallCim d "OperationalLimitType").find?
      (fun lt => get_element_text lt "IdentifiedObject.mRID" == some lt_id) with
  | none => .ok acc
  | some lt =>
    let lt_name := get_element_text lt "IdentifiedObject.name"
    match pyInOptHay "PATL" lt_name with
    | .error e => .error e
    | .ok isPATL =>
      if isPATL then
        match limit_value_of limit_value with
        | .error e => .error e
        | .ok v => .ok (v, acc.2)
      else
        match pyInOptHay "TATL" lt_name with
        | .error e => .error e
        | .ok isTATL =>
          if isTATL then
            match limit_value_of limit_value with
            | .error e => .error e
            | .ok v => .ok (acc.1, v)
          else .ok acc

/-- Lines 396-415: body of the `CurrentLimit` scan for a given limit set:
`if ls_ref and ls_mrid in ls_ref` (substring; raises `TypeError` when the
limit set has no mRID), then resolve the limit-type reference. -/
def limit_scan_step (d : XDoc) (ls_mrid : Option String)
    (acc : Option ℚ × Option ℚ) (cl : XElem) : Except PyErr (Option ℚ × Option ℚ) :=
  let ls_ref := get_element_resource cl "OperationalLimit.OperationalLimitSet"
  if pyTruthyOptStr ls_ref then
    match pyInOpt ls_mrid (ls_ref.getD "") with
    | .error e => .error e
    | .ok hit =>
      if hit then
        let limit_value := get_element_text cl "CurrentLimit.normalValue"
        let limit_type_ref := get_element_resource cl "OperationalLimit.OperationalLimitType"
        if pyTruthyOptStr limit_type_ref then
          classify_limit d limit_value (refLastHashU (limit_type_ref.getD "")) acc
        else .ok acc
      else .ok acc
  else .ok acc

/-- The `CurrentLimit` scan of check 3 for one limit set. -/
def limit_scan (d : XDoc) (ls_mrid : Option String) :
    List XElem → (Option ℚ × Option ℚ) → Except PyErr (Option ℚ × Option ℚ)
  | [], acc => .ok acc
  | cl :: rest, acc =>
    match limit_scan_step d ls_mrid acc cl with
    | .error e => .error e
    | .ok acc' => limit_scan d ls_mrid rest acc'

/-- Lines 392-415: the final `(patl_value, tatl_value)` pair for one limit
set (later matches overwrite earlier ones). -/
def limit_values_for (d : XDoc) (ls : XElem) : Except PyErr (Option ℚ × Option ℚ) :=
  limit_scan d (get_element_text ls "IdentifiedObject.mRID")
    (findallCim d "CurrentLimit") (none, none)

/-- Line 417: `if patl_value and tatl_value and tatl_value < patl_value:`
(Python truthiness: `None` and `0.0` are falsy). -/
def limit_violation (v : Option ℚ × Option ℚ) : Option LimitFinding :=
  match v with
  | (some p, some t) => if p ≠ 0 ∧ t ≠ 0 ∧ t < p then some ⟨t, p⟩ else none
  | _ => none

/-- The `OperationalLimitSet` loop of check 3 (lines 391-419). -/
def limit_check_go (d : XDoc) : List XElem → List LimitFinding →
    Except PyErr (List LimitFinding)
  | [], acc => .ok acc
  | ls :: rest, acc =>
    match limit_values_for d ls with
    | .error e => .error e
    | .ok v =>
      match limit_violation v with
      | some f => limit_check_go d rest (acc ++ [f])
      | none => limit_check_go d rest acc

/-- Check 3: the limit-ordering findings (one per violating limit set). -/
def limit_ordering_check (d : XDoc) : Except PyErr (List LimitFinding) :=
  limit_check_go d (findallCim d "OperationalLimitSet") []

/-- One voltage-mismatch warning of check 4 (lines 421-446). -/
structure VoltFinding where
  vlName : String
  bv : ℚ
deriving DecidableEq, Repr

/-- Check 4: voltage-level name vs referenced base voltage, tolerance 1.0;
the `float` calls sit in a `try/except ValueError: pass`, so this check is
total. -/
def voltage_warnings (d : XDoc) : List VoltFinding :=
  (findallCim d "VoltageLevel").filterMap (fun vl =>
    let vl_name := get_element_text vl "IdentifiedObject.name"
    let base_v_ref := get_element_resource vl "VoltageLevel.BaseVoltage"
    if pyTruthyOptStr base_v_ref && pyTruthyOptStr vl_name then
      match (findallCim d "BaseVoltage").find?
          (fun b => get_element_text b "IdentifiedObject.mRID"
            == some (refLastHashU (base_v_ref.getD ""))) with
      | none => none
      | some bvel =>
        match get_element_text bvel "BaseVoltage.nominalVoltage" with
        | none => none
        | some nv =>
          if strIsEmpty nv then none
          else
            match pyFloat ((vl_name.getD "")), pyFloat nv with
            | some a, some b => if 1 < |a - b| then some ⟨vl_name.getD "", b⟩ else none
            | _, _ => none
    else none)

/-- Check 5 (lines 448-457): zero-impedance equivalent injections;
`float(r)` on truthy unparsable text raises `ValueError`, uncaught. -/
def zero_impedance_check (d : XDoc) : List XElem → List (Option String) →
    Except PyErr (List (Option String))
  | [], acc => .ok acc
  | inj :: rest, acc =>
    let name := get_element_text inj "IdentifiedObject.name"
    let r := get_element_text inj "EquivalentInjection.r"
    let x := get_element_text inj "EquivalentInjection.x"
    if pyTruthyOptStr r && pyTruthyOptStr x then
      match pyFloatE (r.getD "") with
      | .error e => .error e
      | .ok rv =>
        if rv = 0 then
          match pyFloatE (x.getD "") with
          | .error e => .error e
          | .ok xv =>
            if xv = 0 then zero_impedance_check d rest (acc ++ [name])
            else zero_impedance_check d rest acc
        else zero_impedance_check d rest acc
    else zero_impedance_check d rest acc

/-- The raw-text findings of check 6 (lines 459-476). -/
inductive XmlRawFinding where
  | missingFullModelClose
  | incompleteMrid
  | lnameTypo
deriving DecidableEq, Repr

/-- Check 6: re-read the raw file (`none` models an IO failure, converted
to a warning) and scan for three literal patterns. -/
def xml_structure_check (d : XDoc) : List XmlRawFinding × List String :=
  match d.rawContent with
  | none => ([], ["XML structure could not be checked"])
  | some c =>
    ((if pyIn "<md:FullModel" c && !(pyIn "</md:FullModel>" c) then
        [XmlRawFinding.missingFullModelClose] else [])
     ++ (if pyIn "bf2a4896-2e92-465b-b5f9-b033993a318\"" c then
        [XmlRawFinding.incompleteMrid] else [])
     ++ (if pyIn "<cim:IdentifiedObject.lname>" c then
        [XmlRawFinding.lnameTypo] else []), [])

/-- A finding reported by `analyze_question_6` (errors and warnings are
kept in the two separate lists the source accumulates). -/
inductive Q6Item where
  | dupMRID (f : DupFinding)
  | dupTfEnd (f : TfEndDupFinding)
  | limitOrder (f : LimitFinding)
  | xmlStructure (f : XmlRawFinding)
  | voltMismatch (f : VoltFinding)
  | zeroImpedance (name : Option String)
  | xmlUnchecked (msg : String)
deriving DecidableEq, Repr

/-- `analyze_question_6` (lines 348-495): the six checks run sequentially
in one function body; an uncaught exception inside any check aborts the
rest and the whole report (the local `errors`/`warnings` lists are never
printed in that case).  Returns `(errors, warnings)`. -/
def analyze_question_6 (d : XDoc) : Except PyErr (List Q6Item × List Q6Item) :=
  let e1 := (duplicate_mrid_findings d).map Q6Item.dupMRID
  let e2 := (duplicate_tfend_findings d).map Q6Item.dupTfEnd
  match limit_ordering_check d with
  | .error e => .error e
  | .ok l3 =>
    let w4 := (voltage_warnings d).map Q6Item.voltMismatch
    match zero_impedance_check d (findallCim d "EquivalentInjection") [] with
    | .error e => .error e
    | .ok z5 =>
      let (e6, w6) := xml_structure_check d
      .ok (e1 ++ e2 ++ l3.map Q6Item.limitOrder ++ e6.map Q6Item.xmlStructure,
           w4 ++ z5.map Q6Item.zeroImpedance ++ w6.map Q6Item.xmlUnchecked)

/-! ## task2: loader and main (lines 23-32, 497-531) -/

/-- The input handed to `ET.parse`: either well-formed (with its parsed
document) or malformed (with the parser's error message). -/
inductive XmlInput where
  | wellFormed (d : XDoc)
  | malformed (msg : String)
deriving DecidableEq, Repr

/-- `ET.parse`: returns the root for well-formed input, raises
`xml.etree.ElementTree.ParseError` (carrying a message) otherwise. -/
def et_parse : XmlInput → Except String XDoc
  | .wellFormed d => .ok d
  | .malformed m => .error m

/-- `parse_cgmes_file` (lines 23-32): wraps `ET.parse` in
`try/except Exception`, prints the error and returns `None, None`; the
caller receives `None`, never the exception. -/
def parse_cgmes_file (s : XmlInput) : Option XDoc :=
  match et_parse s with
  | .ok d => some d
  | .error _ => none

/-- Modelled from the spec: the Document Loader contract
`load(source) -> RawElement (root) | fails with ParseError`, i.e. the
parse failure is surfaced to the caller as an error value.  Used only to
compare the spec's contract with `parse_cgmes_file`. -/
def load_spec (s : XmlInput) : Except String XDoc :=
  et_parse s

/-- Lines 515-531: the analyses modelled in this file, run sequentially
under main's single `try/except` (question 2 and question 4 are print-only
traversals that emit no findings and are not modelled). -/
def run_analyses (d : XDoc) : Except PyErr (List Q6Item × List Q6Item) :=
  match analyze_question_1 d with
  | .error e => .error e
  | .ok _ =>
    match analyze_question_3 d with
    | .error e => .error e
    | .ok _ =>
      match analyze_question_5 d with
      | .error e => .error e
      | .ok _ => analyze_question_6 d

/-- `main` (lines 497-531): parse; on `None` return immediately (the
analyses never run); otherwise run the analyses, catching any exception at
the very top (`.error` = traceback printed, findings lost). -/
def main_task2 (s : XmlInput) : Option (Except PyErr (List Q6Item × List Q6Item)) :=
  match parse_cgmes_file s with
  | none => none
  | some d => some (run_analyses d)

/-! ## task1: HTTP layer and pipeline (task1.py) -/

/-- An HTTP failure raised by the `requests` layer: connection error,
timeout, or a non-success status code (via `raise_for_status`). -/
inductive HttpFailure where
  | connectionError
  | timeoutError
  | status (code : Nat)
deriving DecidableEq, Repr

/-- Exceptions of the task1 pipeline. -/
inductive Task1Exn where
  | http (f : HttpFailure)
  | valueError (msg : String)
deriving DecidableEq, Repr

/-- One record of the API's `timeseries` array: optional `"from"`
timestamp and the `"values"` array. -/
structure TSItem where
  fromTs : Option Nat
  values : List ℚ
deriving DecidableEq, Repr

/-- The decoded JSON payload: presence of the `"data"` and
`"timeseries"` keys, and the items. -/
structure ApiData where
  hasData : Bool
  hasTimeseries : Bool
  timeseries : List TSItem
deriving DecidableEq, Repr

/-- Outcome of one `requests.get` call. -/
inductive HttpOutcome where
  | connectionError
  | timeoutError
  | response (status : Nat) (contentType : String) (body : Option ApiData)
deriving DecidableEq, Repr

/-- The failure the HTTP layer raises for an outcome, if any:
`requests.get` raises on connection error/timeout, `raise_for_status`
raises for status ≥ 400. -/
def http_raise : HttpOutcome → Option HttpFailure
  | .connectionError => some .connectionError
  | .timeoutError => some .timeoutError
  | .response st _ _ => if 400 ≤ st then some (.status st) else none

/-- `fetch_data` (lines 20-76): no `try/except` around `requests.get` or
`raise_for_status`, so HTTP-layer exceptions propagate unchanged; then the
content-type check and `resp.json()` may raise `ValueError` (the only
exception `fetch_data` transforms). -/
def fetch_data (o : HttpOutcome) : Except Task1Exn ApiData :=
  match o with
  | .connectionError => .error (.http .connectionError)
  | .timeoutError => .error (.http .timeoutError)
  | .response st ct body =>
    if 400 ≤ st then .error (.http (.status st))
    else
      let ctl := pyLower ct
      if pyIn "text/html" ctl || !(("application/json".toList).isPrefixOf ctl.toList) then
        .error (.valueError "API returned HTML")
      else
        match body with
        | some dat => .ok dat
        | none => .error (.valueError "API response is not JSON")

/-- `parse_to_dataframe` (lines 78-106): validate the payload shape, sum
each record's `values` (`0.0` for an empty array), coerce timestamps
(`errors='coerce'` turns a missing `"from"` into `NaT`, dropped by
`dropna`), set the index and sort it (stable). -/
def parse_to_dataframe (dat : ApiData) : Except Task1Exn (List (Nat × ℚ)) :=
  if !dat.hasData then
    .error (.valueError "Invalid data format: data key not found")
  else if !dat.hasTimeseries then
    .error (.valueError "Invalid data format: timeseries key not found in data")
  else if dat.timeseries.isEmpty then
    .error (.valueError "No timeseries data available")
  else
    .ok (sSortBy (fun p => p.1)
      (dat.timeseries.filterMap (fun item =>
        item.fromTs.map (fun t =>
          (t, if item.values.isEmpty then 0 else item.values.sum)))))

/-! ## task1: pandas cells and `calculate_metrics` (lines 108-124) -/

/-- A pandas float cell: missing (`NaN`/`NA`), finite, or the infinities
float division can produce (numpy: `x/0` is `±inf` for `x ≠ 0`, `0/0` is
`NaN`). -/
inductive PVal where
  | na
  | fin (q : ℚ)
  | pinf
  | ninf
deriving DecidableEq, Repr

/-- `reindex` lookup: the value of a frame at a timestamp, `NaN` if the
timestamp is absent. -/
def lookupVal (df : List (Nat × ℚ)) (t : Nat) : Option ℚ :=
  (df.find? (fun p => p.1 == t)).map (fun p => p.2)

/-- Option to pandas cell. -/
def toP : Option ℚ → PVal
  | none => .na
  | some q => .fin q

/-- `.abs()` on a cell. -/
def pAbs : PVal → PVal
  | .fin q => .fin |q|
  | v => v

/-- `.replace(0, pd.NA)` on a cell. -/
def pReplace0 : PVal → PVal
  | .fin q => if q = 0 then .na else .fin q
  | v => v

/-- Element-wise pandas/numpy float division: NA propagates; a zero
divisor yields `±inf` (or `NaN` for `0/0`). -/
def pDiv : PVal → PVal → PVal
  | .fin x, .fin y =>
    if y = 0 then (if x = 0 then .na else if 0 < x then .pinf else .ninf)
    else .fin (x / y)
  | _, _ => .na

/-- `afrr_df.index.union(imbalance_df.index).sort_values()`: sorted unique
union of the two indices. -/
def unionIndex (a b : List (Nat × ℚ)) : List Nat :=
  sSortBy (fun t => t) (firstKeys ((a.map (fun p => p.1)) ++ (b.map (fun p => p.1))))

/-- Line 116: `afrr_abs / imbalance_abs.replace(0, pd.NA)` at one
timestamp of the union index. -/
def ratioAt (a b : List (Nat × ℚ)) (t : Nat) : PVal :=
  pDiv (pAbs (toP (lookupVal a t))) (pReplace0 (pAbs (toP (lookupVal b t))))

/-- `calculate_metrics` (lines 108-124): one row
`(timestamp, afrr_activation, imbalance, ratio_abs)` per union-index
timestamp. -/
def calculate_metrics (a b : List (Nat × ℚ)) : List (Nat × PVal × PVal × PVal) :=
  (unionIndex a b).map (fun t =>
    (t, toP (lookupVal a t), toP (lookupVal b t), ratioAt a b t))

/-- `main` of task1 (lines 217-288), up to the metrics frame: fetch aFRR,
parse, fetch imbalance, parse, compute metrics; there is no `try/except`
anywhere on this path. -/
def task1_main (o1 o2 : HttpOutcome) : Except Task1Exn (List (Nat × PVal × PVal × PVal)) :=
  match fetch_data o1 with
  | .error e => .error e
  | .ok afrr_data =>
    match parse_to_dataframe afrr_data with
    | .error e => .error e
    | .ok afrr_df =>
      match fetch_data o2 with
      | .error e => .error e
      | .ok imbalance_data =>
        match parse_to_dataframe imbalance_data with
        | .error e => .error e
        | .ok imbalance_df => .ok (calculate_metrics afrr_df imbalance_df)

/-! ## Concrete documents used by counterexamples and witnesses -/

/-- A `cim:` leaf child with text content. -/
def mkChildText (t v : String) : XChild := ⟨cimTag t, some v, none⟩

/-- A `cim:` leaf child with an `rdf:resource` attribute. -/
def mkChildRes (t r : String) : XChild := ⟨cimTag t, none, some r⟩

/-- A typed `cim:` element. -/
def mkElem (t : String) (cs : List XChild) : XElem := ⟨cimTag t, none, cs⟩

/-- The `rdf:RDF` root tag. -/
def rdfRootTag : String := qtag rdfNS "RDF"

/-- A document with the given typed elements and an empty raw text. -/
def mkDoc (es : List XElem) : XDoc := ⟨rdfRootTag, es, some ""⟩

/-- C1 counterexample document: one limit set with a resolving
PATL = 1000 and TATL = 0 pair. -/
def docC1ce : XDoc := mkDoc
  [mkElem "OperationalLimitSet" [mkChildText "IdentifiedObject.mRID" "LS1"],
   mkElem "CurrentLimit"
     [mkChildRes "OperationalLimit.OperationalLimitSet" "#_LS1",
      mkChildText "CurrentLimit.normalValue" "1000",
      mkChildRes "OperationalLimit.OperationalLimitType" "#_LT1"],
   mkElem "CurrentLimit"
     [mkChildRes "OperationalLimit.OperationalLimitSet" "#_LS1",
      mkChildText "CurrentLimit.normalValue" "0",
      mkChildRes "OperationalLimit.OperationalLimitType" "#_LT2"],
   mkElem "OperationalLimitType"
     [mkChildText "IdentifiedObject.mRID" "LT1",
      mkChildText "IdentifiedObject.name" "PATL"],
   mkElem "OperationalLimitType"
     [mkChildText "IdentifiedObject.mRID" "LT2",
      mkChildText "IdentifiedObject.name" "TATL"]]

/-- C1 witness document: PATL = 1000, TATL = 900 (a genuine violation). -/
def docC1w : XDoc := mkDoc
  [mkElem "OperationalLimitSet" [mkChildText "IdentifiedObject.mRID" "LS1"],
   mkElem "CurrentLimit"
     [mkChildRes "OperationalLimit.OperationalLimitSet" "#_LS1",
      mkChildText "CurrentLimit.normalValue" "1000",
      mkChildRes "OperationalLimit.OperationalLimitType" "#_LT1"],
   mkElem "CurrentLimit"
     [mkChildRes "OperationalLimit.OperationalLimitSet" "#_LS1",
      mkChildText "CurrentLimit.normalValue" "900",
      mkChildRes "OperationalLimit.OperationalLimitType" "#_LT2"],
   mkElem "OperationalLimitType"
     [mkChildText "IdentifiedObject.mRID" "LT1",
      mkChildText "IdentifiedObject.name" "PATL"],
   mkElem "OperationalLimitType"
     [mkChildText "IdentifiedObject.mRID" "LT2",
      mkChildText "IdentifiedObject.name" "TATL"]]

/-- C2 witness document: the same id on a `GeneratingUnit` and an
`ACLineSegment`. -/
def docC2w : XDoc := mkDoc
  [mkElem "GeneratingUnit" [mkChildText "IdentifiedObject.mRID" "dup1"],
   mkElem "ACLineSegment" [mkChildText "IdentifiedObject.mRID" "dup1"],
   mkElem "Terminal" [mkChildText "IdentifiedObject.mRID" "t1"]]

/-- C3 counterexample document: a synchronous machine whose
`GeneratingUnit` reference points at an id absent from the table. -/
def docC3ce : XDoc := mkDoc
  [mkElem "GeneratingUnit"
     [mkChildText "IdentifiedObject.mRID" "g1",
      mkChildText "IdentifiedObject.name" "G1",
      mkChildText "GeneratingUnit.maxOperatingP" "100"],
   mkElem "SynchronousMachine"
     [mkChildText "IdentifiedObject.mRID" "sm1",
      mkChildRes "RotatingMachine.GeneratingUnit" "#_missing",
      mkChildText "RotatingMachine.ratedPowerFactor" "0.9"]]

/-- C4 counterexample document: a duplicate id (check 1 finds an error)
together with a current limit whose limit type has no name, so check 3
raises `TypeError` and the duplicate finding is lost. -/
def docC4ce : XDoc := mkDoc
  [mkElem "GeneratingUnit" [mkChildText "IdentifiedObject.mRID" "dup1"],
   mkElem "ACLineSegment" [mkChildText "IdentifiedObject.mRID" "dup1"],
   mkElem "OperationalLimitSet" [mkChildText "IdentifiedObject.mRID" "LS1"],
   mkElem "CurrentLimit"
     [mkChildRes "OperationalLimit.OperationalLimitSet" "#_LS1",
      mkChildText "CurrentLimit.normalValue" "100",
      mkChildRes "OperationalLimit.OperationalLimitType" "#_LT1"],
   mkElem "OperationalLimitType" [mkChildText "IdentifiedObject.mRID" "LT1"]]

/-- C5 counterexample document: a transformer `T1` with three ends, where
the two largest rated voltages (400 and 150) sit on ends 1 and 3. -/
def docC5ce : XDoc := mkDoc
  [mkElem "PowerTransformerEnd"
     [mkChildRes "PowerTransformerEnd.PowerTransformer" "#_T1",
      mkChildText "TransformerEnd.endNumber" "1",
      mkChildText "PowerTransformerEnd.ratedU" "400",
      mkChildText "PowerTransformerEnd.ratedS" "1000"],
   mkElem "PowerTransformerEnd"
     [mkChildRes "PowerTransformerEnd.PowerTransformer" "#_T1",
      mkChildText "TransformerEnd.endNumber" "2",
      mkChildText "PowerTransformerEnd.ratedU" "20",
      mkChildText "PowerTransformerEnd.ratedS" "1000"],
   mkElem "PowerTransformerEnd"
     [mkChildRes "PowerTransformerEnd.PowerTransformer" "#_T1",
      mkChildText "TransformerEnd.endNumber" "3",
      mkChildText "PowerTransformerEnd.ratedU" "150",
      mkChildText "PowerTransformerEnd.ratedS" "1000"]]

/-- C6 witness document: every generating unit is `offAGC`. -/
def docC6w : XDoc := mkDoc
  [mkElem "GeneratingUnit"
     [mkChildText "IdentifiedObject.name" "NL-A",
      mkChildRes "GeneratingUnit.genControlSource" "#GeneratorControlSource.offAGC",
      mkChildText "GeneratingUnit.maxOperatingP" "500"],
   mkElem "GeneratingUnit"
     [mkChildText "IdentifiedObject.name" "NL-B",
      mkChildRes "GeneratingUnit.genControlSource" "#GeneratorControlSource.offAGC",
      mkChildText "GeneratingUnit.maxOperatingP" "700"]]

/-- The generator records `build_generators` produces for `docC6w`. -/
def gensC6 : List GenRec :=
  [⟨some "NL-A", "GeneratorControlSource.offAGC", 500⟩,
   ⟨some "NL-B", "GeneratorControlSource.offAGC", 700⟩]

/-- C10 witness document: a unit without `maxOperatingP`, then two tied
units (700) and the tie must go to the first of them. -/
def docC10w : XDoc := mkDoc
  [mkElem "GeneratingUnit"
     [mkChildText "IdentifiedObject.name" "NoCap",
      mkChildRes "GeneratingUnit.genControlSource" "#GeneratorControlSource.offAGC"],
   mkElem "GeneratingUnit"
     [mkChildText "IdentifiedObject.name" "B1",
      mkChildRes "GeneratingUnit.genControlSource" "#GeneratorControlSource.offAGC",
      mkChildText "GeneratingUnit.maxOperatingP" "700"],
   mkElem "GeneratingUnit"
     [mkChildText "IdentifiedObject.name" "B2",
      mkChildRes "GeneratingUnit.genControlSource" "#GeneratorControlSource.offAGC",
      mkChildText "GeneratingUnit.maxOperatingP" "700"]]

/-- The generator records `build_generators` produces for `docC10w`. -/
def gensC10 : List GenRec :=
  [⟨some "NoCap", "GeneratorControlSource.offAGC", 0⟩,
   ⟨some "B1", "GeneratorControlSource.offAGC", 700⟩,
   ⟨some "B2", "GeneratorControlSource.offAGC", 700⟩]

/-- A well-formed API payload used by the C8 witness. -/
def apiOkData : ApiData := ⟨true, true, [⟨some 1, [2]⟩]⟩

/-- `Except.ok` projection used to state characterizations of monadic
loops. -/
def exOk? {ε α : Type} : Except ε α → Option α
  | .ok a => some a
  | .error _ => none

/-! ## Helper lemmas: stable insertion sort -/

theorem mem_sInsBy {α β : Type} [LinearOrder β] (key : α → β) (a b : α) (l : List α) :
    b ∈ sInsBy key a l ↔ b = a ∨ b ∈ l := by
  induction l with
  | nil => simp [sInsBy]
  | cons x t ih =>
    by_cases h : key x < key a
    · simp only [sInsBy, if_pos h, List.mem_cons, ih]
      tauto
    · simp only [sInsBy, if_neg h, List.mem_cons]

theorem sorted_sInsBy {α β : Type} [LinearOrder β] (key : α → β) (a : α) (l : List α)
    (h : List.Sorted (fun x y => key x ≤ key y) l) :
    List.Sorted (fun x y => key x ≤ key y) (sInsBy key a l) := by
  induction l with
  | nil => simp [sInsBy]
  | cons x t ih =>
    have hx := List.sorted_cons.1 h
    by_cases hlt : key x < key a
    · rw [sInsBy, if_pos hlt, List.sorted_cons]
      refine ⟨?_, ih hx.2⟩
      intro b hb
      rcases (mem_sInsBy key a b t).1 hb with rfl | hbt
      · exact le_of_lt hlt
      · exact hx.1 b hbt
    · rw [sInsBy, if_neg hlt, List.sorted_cons]
      refine ⟨?_, h⟩
      intro b hb
      rcases List.mem_cons.1 hb with rfl | hbt
      · exact le_of_not_lt hlt
      · exact le_trans (le_of_not_lt hlt) (hx.1 b hbt)

theorem sorted_sSortBy {α β : Type} [LinearOrder β] (key : α → β) (l : List α) :
    List.Sorted (fun x y => key x ≤ key y) (sSortBy key l) := by
  induction l with
  | nil => simp [sSortBy]
  | cons a t ih => exact sorted_sInsBy key a _ ih

theorem perm_sInsBy {α β : Type} [LinearOrder β] (key : α → β) (a : α) (l : List α) :
    List.Perm (sInsBy key a l) (a :: l) := by
  induction l with
  | nil => simp [sInsBy]
  | cons x t ih =>
    by_cases h : key x < key a
    · rw [sInsBy, if_pos h]
      exact (ih.cons x).trans (List.Perm.swap a x t)
    · rw [sInsBy, if_neg h]

theorem perm_sSortBy {α β : Type} [LinearOrder β] (key : α → β) (l : List α) :
    List.Perm (sSortBy key l) l := by
  induction l with
  | nil => simp [sSortBy]
  | cons a t ih => exact (perm_sInsBy key a (sSortBy key t)).trans (ih.cons a)

/-! ## Helper lemmas: first-occurrence dict keys -/

theorem mem_firstKeysAux {α : Type} [DecidableEq α] (l : List α) (seen : List α) (a : α) :
    a ∈ firstKeysAux l seen ↔ a ∈ l ∧ a ∉ seen := by
  induction l generalizing seen with
  | nil => simp [firstKeysAux]
  | cons x t ih =>
    by_cases hx : x ∈ seen
    · rw [firstKeysAux, if_pos hx, ih]
      constructor
      · rintro ⟨h1, h2⟩
        exact ⟨List.mem_cons_of_mem x h1, h2⟩
      · rintro ⟨h1, h2⟩
        rcases List.mem_cons.1 h1 with rfl | h1'
        · exact absurd hx h2
        · exact ⟨h1', h2⟩
    · rw [firstKeysAux, if_neg hx]
      constructor
      · intro hmem
        rcases List.mem_cons.1 hmem with rfl | hmem'
        · exact ⟨List.mem_cons_self a t, hx⟩
        · have := (ih (x :: seen)).1 hmem'
          exact ⟨List.mem_cons_of_mem x this.1,
            fun hs => this.2 (List.mem_cons_of_mem x hs)⟩
      · rintro ⟨h1, h2⟩
        rcases List.mem_cons.1 h1 with rfl | h1'
        · exact List.mem_cons_self a _
        · by_cases hax : a = x
          · subst hax
            exact List.mem_cons_self a _
          · exact List.mem_cons_of_mem x ((ih (x :: seen)).2
              ⟨h1', fun hs => (List.mem_cons.1 hs).elim hax h2⟩)

theorem nodup_firstKeysAux {α : Type} [DecidableEq α] (l : List α) (seen : List α) :
    (firstKeysAux l seen).Nodup := by
  induction l generalizing seen with
  | nil => simp [firstKeysAux]
  | cons x t ih =>
    by_cases hx : x ∈ seen
    · rw [firstKeysAux, if_pos hx]
      exact ih seen
    · rw [firstKeysAux, if_neg hx]
      refine List.nodup_cons.2 ⟨?_, ih (x :: seen)⟩
      intro hmem
      exact ((mem_firstKeysAux t (x :: seen) x).1 hmem).2 (List.mem_cons_self x seen)

theorem mem_firstKeys {α : Type} [DecidableEq α] (l : List α) (a : α) :
    a ∈ firstKeys l ↔ a ∈ l := by
  rw [firstKeys, mem_firstKeysAux]
  simp

theorem nodup_firstKeys {α : Type} [DecidableEq α] (l : List α) :
    (firstKeys l).Nodup :=
  nodup_firstKeysAux l []

/-! ## Helper lemmas: Python `max(..., key=...)` -/

theorem pyMaxBy_foldl_spec {α : Type} (key : α → ℚ) (l : List α) (a : α) :
    (l.foldl (fun best x => if key best < key x then x else best) a = a
      ∨ l.foldl (fun best x => if key best < key x then x else best) a ∈ l)
    ∧ key a ≤ key (l.foldl (fun best x => if key best < key x then x else best) a)
    ∧ ∀ x ∈ l, key x ≤ key (l.foldl (fun best x => if key best < key x then x else best) a) := by
  induction l generalizing a with
  | nil => simp
  | cons x t ih =>
    simp only [List.foldl_cons]
    obtain ⟨h1, h2, h3⟩ := ih (if key a < key x then x else a)
    have hstep : key a ≤ key (if key a < key x then x else a) := by
      by_cases h : key a < key x
      · rw [if_pos h]; exact le_of_lt h
      · rw [if_neg h]
    have hxstep : key x ≤ key (if key a < key x then x else a) := by
      by_cases h : key a < key x
      · rw [if_pos h]
      · rw [if_neg h]; exact le_of_not_lt h
    refine ⟨?_, le_trans hstep h2, ?_⟩
    · rcases h1 with h1 | h1
      · rw [h1]
        by_cases h : key a < key x
        · rw [if_pos h]; right; exact List.mem_cons_self x t
        · rw [if_neg h]; left; rfl
      · right; exact List.mem_cons_of_mem x h1
    · intro y hy
      rcases List.mem_cons.1 hy with rfl | hyt
      · exact le_trans hxstep h2
      · exact h3 y hyt

theorem pyMaxBy_mem_le {α : Type} (key : α → ℚ) (l : List α) (m : α)
    (h : pyMaxBy key l = some m) : m ∈ l ∧ ∀ x ∈ l, key x ≤ key m := by
  cases l with
  | nil => cases h
  | cons a t =>
    rw [pyMaxBy, Option.some_inj] at h
    obtain ⟨h1, h2, h3⟩ := pyMaxBy_foldl_spec key t a
    subst h
    refine ⟨?_, ?_⟩
    · rcases h1 with h1 | h1
      · rw [h1]; exact List.mem_cons_self a t
      · exact List.mem_cons_of_mem a h1
    · intro x hx
      rcases List.mem_cons.1 hx with rfl | hxt
      · exact h2
      · exact h3 x hxt

theorem foldl_max_keep {α : Type} (key : α → ℚ) (g : α) (post : List α)
    (hpost : ∀ q ∈ post, key q ≤ key g) :
    post.foldl (fun best x => if key best < key x then x else best) g = g := by
  induction post with
  | nil => rfl
  | cons q t ih =>
    simp only [List.foldl_cons]
    rw [if_neg (not_lt_of_le (hpost q (List.mem_cons_self q t)))]
    exact ih (fun y hy => hpost y (List.mem_cons_of_mem q hy))

theorem foldl_max_reach {α : Type} (key : α → ℚ) (g : α) (post : List α)
    (hpost : ∀ q ∈ post, key q ≤ key g) :
    ∀ pre : List α, ∀ a : α, (∀ p ∈ pre, key p < key g) → key a < key g →
    (pre ++ g :: post).foldl (fun best x => if key best < key x then x else best) a = g := by
  intro pre
  induction pre with
  | nil =>
    intro a _ ha
    simp only [List.nil_append, List.foldl_cons]
    rw [if_pos ha]
    exact foldl_max_keep key g post hpost
  | cons p t ih =>
    intro a hpre ha
    simp only [List.cons_append, List.foldl_cons]
    have hp : key p < key g := hpre p (List.mem_cons_self p t)
    have ht : ∀ x ∈ t, key x < key g := fun x hx => hpre x (List.mem_cons_of_mem p hx)
    by_cases h : key a < key p
    · rw [if_pos h]; exact ih p ht hp
    · rw [if_neg h]; exact ih a ht ha

theorem pyMaxBy_first {α : Type} (key : α → ℚ) (pre : List α) (g : α) (post : List α)
    (hpre : ∀ p ∈ pre, key p < key g) (hpost : ∀ q ∈ post, key q ≤ key g) :
    pyMaxBy key (pre ++ g :: post) = some g := by
  cases pre with
  | nil =>
    simp only [List.nil_append, pyMaxBy]
    rw [foldl_max_keep key g post hpost]
  | cons p t =>
    simp only [List.cons_append, pyMaxBy]
    rw [Option.some_inj]
    exact foldl_max_reach key g post hpost t p
      (fun x hx => hpre x (List.mem_cons_of_mem p hx))
      (hpre p (List.mem_cons_self p t))

/-! ## Helper lemmas: question-6 check structure -/

theorem limit_check_go_ok (d : XDoc) (lss : List XElem) (acc fs : List LimitFinding)
    (h : limit_check_go d lss acc = .ok fs) :
    fs = acc ++ lss.filterMap
      (fun ls => (exOk? (limit_values_for d ls)).bind limit_violation) := by
  induction lss generalizing acc with
  | nil =>
    simp only [limit_check_go, Except.ok.injEq] at h
    simp [h]
  | cons ls rest ih =>
    rw [limit_check_go] at h
    cases hv : limit_values_for d ls with
    | error e => rw [hv] at h; cases h
    | ok v =>
      rw [hv] at h
      cases hviol : limit_violation v with
      | some f =>
        simp only [hviol] at h
        rw [ih _ h]
        simp [exOk?, hv, hviol]
      | none =>
        simp only [hviol] at h
        rw [ih _ h]
        simp [exOk?, hv, hviol]

theorem analyze_question_6_error (d : XDoc) (e : PyErr)
    (h : limit_ordering_check d = .error e) :
    analyze_question_6 d = .error e := by
  rw [analyze_question_6, h]

/-! ## Helper lemmas: duplicate-id findings -/

theorem dup_filter_nil (d : XDoc) (t : List String) (id : String) (hnotin : id ∉ t) :
    ((t.filterMap (fun k => if 1 < (occTypes d k).length
        then some (⟨k, occTypes d k⟩ : DupFinding) else none)).filter
      (fun f => f.id == id)) = [] := by
  induction t with
  | nil => rfl
  | cons k t ih =>
    have hk : k ≠ id := fun h => hnotin (h ▸ List.mem_cons_self k t)
    have hnotin' : id ∉ t := fun h => hnotin (List.mem_cons_of_mem k h)
    by_cases hg : 1 < (occTypes d k).length
    · simp only [List.filterMap_cons, if_pos hg, List.filter_cons]
      rw [if_neg (by simp [hk])]
      exact ih hnotin'
    · simp only [List.filterMap_cons, if_neg hg]
      exact ih hnotin'

theorem dup_filter_single (d : XDoc) (ks : List String) (hnd : ks.Nodup) (id : String)
    (hmem : id ∈ ks) (hguard : 1 < (occTypes d id).length) :
    ((ks.filterMap (fun k => if 1 < (occTypes d k).length
        then some (⟨k, occTypes d k⟩ : DupFinding) else none)).filter
      (fun f => f.id == id)) = [⟨id, occTypes d id⟩] := by
  induction ks with
  | nil => cases hmem
  | cons k t ih =>
    have hnd' := List.nodup_cons.1 hnd
    by_cases hk : k = id
    · subst hk
      simp only [List.filterMap_cons, if_pos hguard, List.filter_cons]
      rw [if_pos (by simp)]
      rw [dup_filter_nil d t k hnd'.1]
    · have hmem' : id ∈ t := (List.mem_cons.1 hmem).resolve_left (fun h => hk h.symm)
      by_cases hg : 1 < (occTypes d k).length
      · simp only [List.filterMap_cons, if_pos hg, List.filter_cons]
        rw [if_neg (by simp [hk])]
        exact ih hnd'.2 hmem'
      · simp only [List.filterMap_cons, if_neg hg]
        exact ih hnd'.2 hmem'

/-! ## Claim C1 — limit ordering (corrected) -/

/-- C1 (amended): for every operational limit set, the check emits exactly
one error finding — citing both resolved values — iff both the PATL and
TATL values resolve to **nonzero** floats with TATL < PATL, and none
otherwise (in particular none when TATL ≥ PATL, and also none when either
resolved value is 0, since the source guards with Python truthiness
`if patl_value and tatl_value`).  The finding list equals, in order, the
per-limit-set `limit_violation` results. -/
theorem C1_limit_ordering_amended (d : XDoc) (fs : List LimitFinding)
    (h : limit_ordering_check d = .ok fs) :
    fs = (findallCim d "OperationalLimitSet").filterMap
        (fun ls => (exOk? (limit_values_for d ls)).bind limit_violation)
    ∧ (∀ p t : ℚ, p ≠ 0 → t ≠ 0 → t < p →
        limit_violation (some p, some t) = some ⟨t, p⟩)
    ∧ (∀ p t : ℚ, ¬(t < p) → limit_violation (some p, some t) = none)
    ∧ (∀ p : ℚ, limit_violation (some p, some 0) = none) := by
  refine ⟨?_, ?_, ?_, ?_⟩
  · have := limit_check_go_ok d (findallCim d "OperationalLimitSet") [] fs h
    simpa using this
  · intro p t hp ht hlt
    simp [limit_violation, hp, ht, hlt]
  · intro p t hnlt
    simp [limit_violation, hnlt]
  · intro p
    simp [limit_violation]

/-- C1 counterexample: in `docC1ce` both limit values resolve
(PATL = 1000, TATL = 0) and TATL < PATL strictly, yet the check emits no
finding at all: the guard `if patl_value and tatl_value` treats the float
`0.0` as falsy, contradicting the claim as stated. -/
theorem C1_counterexample :
    (findallCim docC1ce "OperationalLimitSet")
      = [mkElem "OperationalLimitSet" [mkChildText "IdentifiedObject.mRID" "LS1"]]
    ∧ limit_values_for docC1ce
        (mkElem "OperationalLimitSet" [mkChildText "IdentifiedObject.mRID" "LS1"])
      = .ok (some 1000, some 0)
    ∧ ((0 : ℚ) < 1000)
    ∧ limit_ordering_check docC1ce = .ok [] := by
  exact ⟨by decide, by decide, by decide, by decide⟩

/-- C1 witness: on `docC1w` (PATL = 1000, TATL = 900) the amended theorem
applies and the check emits exactly the one finding citing both values. -/
theorem C1_witness :
    limit_ordering_check docC1w = .ok [⟨900, 1000⟩]
    ∧ [(⟨900, 1000⟩ : LimitFinding)]
      = (findallCim docC1w "OperationalLimitSet").filterMap
          (fun ls => (exOk? (limit_values_for docC1w ls)).bind limit_violation) := by
  have h : limit_ordering_check docC1w = .ok [⟨900, 1000⟩] := by decide
  exact ⟨h, (C1_limit_ordering_amended docC1w [⟨900, 1000⟩] h).1⟩

/-! ## Claim C2 — duplicate identifiers (confirmed) -/

/-- C2: for every id attached to more than one source element (at least
two `mRID` occurrences), the duplicate-identifier check produces exactly
one error finding for that id, and that finding carries the id together
with the list of parent element types observed for it (whose members are
exactly the types attached to the id; the printed "set of distinct types"
is its deduplication). -/
theorem C2_duplicate_identifier (d : XDoc) (id : String)
    (h : 2 ≤ (occTypes d id).length) :
    (duplicate_mrid_findings d).filter (fun f => f.id == id)
      = [⟨id, occTypes d id⟩]
    ∧ (∀ ty : String, ty ∈ occTypes d id ↔ (id, ty) ∈ mridOccurrences d) := by
  constructor
  · have hne : occTypes d id ≠ [] := by
      intro hnil
      rw [hnil] at h
      simp at h
    have hmem : id ∈ firstKeys ((mridOccurrences d).map (fun p => p.1)) := by
      rw [mem_firstKeys]
      obtain ⟨ty, hty⟩ := List.exists_mem_of_ne_nil _ hne
      rw [occTypes] at hty
      obtain ⟨p, hp, hpty⟩ := List.mem_map.1 hty
      have hfil := List.mem_filter.1 hp
      have h1 : p.1 = id := by simpa using hfil.2
      exact List.mem_map.2 ⟨p, hfil.1, h1⟩
    have := dup_filter_single d _ (nodup_firstKeys _) id hmem h
    simpa [duplicate_mrid_findings] using this
  · intro ty
    constructor
    · intro hty
      rw [occTypes] at hty
      obtain ⟨p, hp, hpty⟩ := List.mem_map.1 hty
      have hfil := List.mem_filter.1 hp
      have h1 : p.1 = id := by simpa using hfil.2
      have : p = (id, ty) := by
        cases p
        simp_all
      exact this ▸ hfil.1
    · intro hty
      rw [occTypes]
      refine List.mem_map.2 ⟨(id, ty), ?_, rfl⟩
      exact List.mem_filter.2 ⟨hty, by simp⟩

/-- C2 witness: `docC2w` carries the same id on a `GeneratingUnit` and an
`ACLineSegment`; the check reports it exactly once, naming both types. -/
theorem C2_witness :
    (duplicate_mrid_findings docC2w).filter (fun f => f.id == "dup1")
      = [⟨"dup1", ["GeneratingUnit", "ACLineSegment"]⟩] := by
  have h := (C2_duplicate_identifier docC2w "dup1" (by decide)).1
  rw [h]
  decide

/-! ## Claim C3 — reference resolution (corrected) -/

/-- C3 (amended): reference handling in the synchronous-machine pass is
total but **silent**: when the reference is falsy or its stripped target
id is not a key of the generator table, the pass returns the table
unchanged, raises nothing — and emits no finding of any kind (the code
has no `DanglingReference` warning). -/
theorem C3_dangling_silent (tbl : List (Option String × GenData)) (sm : XElem)
    (h : pyTruthyOptStr (get_element_resource sm "RotatingMachine.GeneratingUnit") = false
      ∨ tbl.any (fun p => p.1 == some (refLastHashU
          ((get_element_resource sm "RotatingMachine.GeneratingUnit").getD ""))) = false) :
    q1_sync_step tbl sm = .ok tbl := by
  rcases h with h | h
  · simp [q1_sync_step, h]
  · by_cases houter :
      pyTruthyOptStr (get_element_resource sm "RotatingMachine.GeneratingUnit") = true
    · simp [q1_sync_step, houter, h]
    · simp at houter
      simp [q1_sync_step, houter]

/-- C3 counterexample: in `docC3ce` the machine's reference strips to
`"missing"`, absent from the table; the pass leaves the table unchanged,
and the whole analysis produces no finding whatsoever (question 6 reports
empty error and warning lists; question 1 has no finding channel at all) —
the dangling reference is silently dropped, contradicting the claimed
warning finding carrying source id, field name and token. -/
theorem C3_counterexample :
    refLastHashU "#_missing" = "missing"
    ∧ ([((some "g1" : Option String), (⟨some "G1", 100, 0, 0, none, none⟩ : GenData))].any
        (fun p => p.1 == some "missing")) = false
    ∧ q1_sync_step [(some "g1", ⟨some "G1", 100, 0, 0, none, none⟩)]
        (mkElem "SynchronousMachine"
          [mkChildText "IdentifiedObject.mRID" "sm1",
           mkChildRes "RotatingMachine.GeneratingUnit" "#_missing",
           mkChildText "RotatingMachine.ratedPowerFactor" "0.9"])
      = .ok [(some "g1", ⟨some "G1", 100, 0, 0, none, none⟩)]
    ∧ analyze_question_6 docC3ce = .ok ([], []) := by
  exact ⟨by decide, by decide, by decide, by decide⟩

/-- C3 witness: the amended theorem applied to a machine with a dangling
reference. -/
theorem C3_witness :
    q1_sync_step [(some "g7", ⟨some "G7", 250, 0, 0, none, none⟩)]
      (mkElem "SynchronousMachine"
        [mkChildRes "RotatingMachine.GeneratingUnit" "#_nowhere"])
      = .ok [(some "g7", ⟨some "G7", 250, 0, 0, none, none⟩)] :=
  C3_dangling_silent _ _ (Or.inr (by decide))

/-! ## Claim C4 — rule-failure isolation (corrected) -/

/-- C4 (amended): an internal error raised inside the limit-ordering check
aborts `analyze_question_6` entirely: the later checks do not run, the
findings the earlier checks had already collected are discarded, and no
`RuleExecutionFailed` finding exists — the exception propagates to the
single top-level handler in `main`. -/
theorem C4_rule_error_aborts (d : XDoc) (e : PyErr)
    (h : limit_ordering_check d = .error e) :
    analyze_question_6 d = .error e := by
  rw [analyze_question_6, h]

/-- C4 counterexample: in `docC4ce` the duplicate-id check finds an error,
but the limit-ordering check evaluates `'PATL' in None` (the limit type
has no name) and raises `TypeError`; `analyze_question_6` returns the
exception, so checks 4-6 never ran and the duplicate finding was lost —
no `RuleExecutionFailed` finding is produced anywhere. -/
theorem C4_counterexample :
    duplicate_mrid_findings docC4ce = [⟨"dup1", ["GeneratingUnit", "ACLineSegment"]⟩]
    ∧ limit_ordering_check docC4ce = .error PyErr.typeError
    ∧ analyze_question_6 docC4ce = .error PyErr.typeError := by
  exact ⟨by decide, by decide, by decide⟩

/-- C4 witness: the amended theorem applied to `docC4ce`. -/
theorem C4_witness :
    analyze_question_6 docC4ce = .error PyErr.typeError :=
  C4_rule_error_aborts docC4ce PyErr.typeError (by decide)

/-! ## Claim C5 — winding query (corrected) -/

/-- C5 (amended): the winding query returns exactly the collected ends
(whose `PowerTransformer` reference matches the transformer id) sorted by
end number ascending, classifies each end by the strict 100-unit threshold
on rated voltage, and computes the printed ratio as **first-end voltage
over second-end voltage in end-number order** — not as the ratio of the
two largest-rated-voltage ends. -/
theorem C5_winding_query (d : XDoc) (tid : String) (ws : List Winding)
    (h : collect_windings d tid = .ok ws) :
    List.Sorted (fun a b => a.endNo ≤ b.endNo) ws
    ∧ (∀ raw, winding_fold tid (findallCim d "PowerTransformerEnd") [] = .ok raw →
        List.Perm ws raw)
    ∧ (∀ w ∈ ws, winding_side w = if 100 < w.u then "YG" else "AG")
    ∧ (∀ w0 w1 rest, ws = w0 :: w1 :: rest → w1.u ≠ 0 →
        winding_ratio ws = .ok (some (w0.u / w1.u))) := by
  have hex : ∃ raw, winding_fold tid (findallCim d "PowerTransformerEnd") [] = .ok raw
      ∧ ws = sSortBy (fun w => w.endNo) raw := by
    rw [collect_windings] at h
    cases hf : winding_fold tid (findallCim d "PowerTransformerEnd") [] with
    | error e => rw [hf] at h; cases h
    | ok raw =>
      rw [hf] at h
      exact ⟨raw, rfl, by simpa using h.symm⟩
  obtain ⟨raw, hraw, hws⟩ := hex
  refine ⟨?_, ?_, ?_, ?_⟩
  · rw [hws]
    exact sorted_sSortBy (fun w => w.endNo) raw
  · intro raw' hraw'
    rw [hraw] at hraw'
    have : raw = raw' := by simpa using hraw'
    rw [hws, ← this]
    exact perm_sSortBy (fun w => w.endNo) raw
  · intro w _
    rfl
  · intro w0 w1 rest hcons hu
    rw [hcons, winding_ratio]
    simp [hu]

/-- C5 counterexample: for `docC5ce` (ends 1, 2, 3 at 400, 20 and 150
units) the code's ratio is 400/20 = 20, taken from the two lowest end
numbers, whereas the ratio of the two largest-rated ends — the claim's
formula, 400/150 as in the spec's own example — is 8/3 ≈ 2.67 (and its
inverse 3/8); neither matches. -/
theorem C5_counterexample :
    collect_windings docC5ce "T1"
      = .ok [⟨1, 400, 1000, "N/A"⟩, ⟨2, 20, 1000, "N/A"⟩, ⟨3, 150, 1000, "N/A"⟩]
    ∧ winding_ratio
        [(⟨1, 400, 1000, "N/A"⟩ : Winding), ⟨2, 20, 1000, "N/A"⟩, ⟨3, 150, 1000, "N/A"⟩]
      = .ok (some 20)
    ∧ spec_largest_ratio
        [(⟨1, 400, 1000, "N/A"⟩ : Winding), ⟨2, 20, 1000, "N/A"⟩, ⟨3, 150, 1000, "N/A"⟩]
      = some (8 / 3)
    ∧ (20 : ℚ) ≠ 8 / 3 ∧ (20 : ℚ) ≠ 3 / 8 := by
  refine ⟨by decide, by with_unfolding_all decide, by with_unfolding_all decide,
    by with_unfolding_all decide, by with_unfolding_all decide⟩

/-- C5 witness: the amended theorem applied to `docC5ce`. -/
theorem C5_witness :
    List.Sorted (fun a b => a.endNo ≤ b.endNo)
      [(⟨1, 400, 1000, "N/A"⟩ : Winding), ⟨2, 20, 1000, "N/A"⟩, ⟨3, 150, 1000, "N/A"⟩]
    ∧ winding_ratio
        [(⟨1, 400, 1000, "N/A"⟩ : Winding), ⟨2, 20, 1000, "N/A"⟩, ⟨3, 150, 1000, "N/A"⟩]
      = .ok (some ((400 : ℚ) / 20)) := by
  have h : collect_windings docC5ce "T1"
      = .ok [⟨1, 400, 1000, "N/A"⟩, ⟨2, 20, 1000, "N/A"⟩, ⟨3, 150, 1000, "N/A"⟩] := by
    decide
  have hc := C5_winding_query docC5ce "T1" _ h
  exact ⟨hc.1, hc.2.2.2 _ _ _ rfl (by decide)⟩

/-! ## Claim C6 — slack detection (confirmed) -/

/-- C6: for a document whose generator list is non-empty and in which no
unit's control-source string indicates AGC participation (the code's
predicate: contains `onAGC`, or `slack` case-insensitively), the
"no explicit slack" warning is emitted and the recommendation is a
generating unit with the numerically largest `max_p`; and any unit whose
control string does match the predicate is flagged as slack. -/
theorem C6_slack_detection (d : XDoc) (gens : List GenRec)
    (hb : build_generators d = .ok gens) :
    ((gens ≠ [] ∧ ∀ g ∈ gens, is_slack g = false) →
      no_slack_warning gens = true
      ∧ ∃ g, slack_recommendation gens = some g ∧ g ∈ gens
          ∧ ∀ g' ∈ gens, g'.max_p ≤ g.max_p)
    ∧ (∀ g ∈ gens, is_slack g = true → g ∈ slack_flagged gens) := by
  constructor
  · rintro ⟨hne, hnos⟩
    have hany : gens.any is_slack = false := by
      rw [List.any_eq_false]
      intro x hx
      rw [hnos x hx]
      simp
    refine ⟨by rw [no_slack_warning, hany]; rfl, ?_⟩
    obtain ⟨g0, t, rfl⟩ : ∃ g0 t, gens = g0 :: t := by
      cases gens with
      | nil => exact absurd rfl hne
      | cons a b => exact ⟨a, b, rfl⟩
    cases hm : pyMaxBy (fun g => g.max_p) (g0 :: t) with
    | none => rw [pyMaxBy] at hm; cases hm
    | some m =>
      obtain ⟨hmem, hle⟩ := pyMaxBy_mem_le _ _ _ hm
      refine ⟨m, ?_, hmem, hle⟩
      rw [slack_recommendation, hany]
      simpa using hm
  · intro g hg hs
    rw [slack_flagged]
    exact List.mem_filter.2 ⟨hg, hs⟩

/-- C6 witness: on `docC6w` (both units `offAGC`, capacities 500 and 700)
the warning fires and the 700 MW unit is recommended. -/
theorem C6_witness :
    no_slack_warning gensC6 = true
    ∧ ∃ g, slack_recommendation gensC6 = some g ∧ g ∈ gensC6
        ∧ ∀ g' ∈ gensC6, g'.max_p ≤ g.max_p :=
  (C6_slack_detection docC6w gensC6 (by decide)).1 ⟨by decide, by decide⟩

/-! ## Claim C7 — document loader (corrected) -/

/-- C7 (amended): on malformed input `parse_cgmes_file` catches the parse
exception, prints it, and returns `None` — the caller observes only
`None`, never an error value — and `main` checks for `None` and aborts
without running any analysis; for well-formed input the root is returned
and the analyses run. -/
theorem C7_loader_amended (s : XmlInput) :
    parse_cgmes_file s
      = (match s with | .wellFormed d => some d | .malformed _ => none)
    ∧ main_task2 s = (parse_cgmes_file s).map run_analyses := by
  cases s with
  | wellFormed d => exact ⟨rfl, rfl⟩
  | malformed m => exact ⟨rfl, rfl⟩

/-- C7 counterexample: for malformed input the loader returns `none` — the
`ParseError` is swallowed inside `parse_cgmes_file` (all causes collapse
to the same `none`), so no error value reaches the caller, contradicting
"fails with a ParseError surfaced to the caller"; `load_spec` shows the
claimed contract for comparison. -/
theorem C7_counterexample :
    parse_cgmes_file (XmlInput.malformed "mismatched tag") = none
    ∧ parse_cgmes_file (XmlInput.malformed "invalid encoding") = none
    ∧ load_spec (XmlInput.malformed "mismatched tag") = Except.error "mismatched tag"
    ∧ main_task2 (XmlInput.malformed "mismatched tag") = none := by
  exact ⟨rfl, rfl, rfl, rfl⟩

/-! ## Claim C8 — network errors propagate (confirmed) -/

/-- C8: every HTTP-layer failure (connection error, timeout, or status
≥ 400 raised by `raise_for_status`) propagates unchanged through the task1
pipeline: the pipeline result is exactly the HTTP exception the layer
raised, whether it occurs at the first fetch or — after a successful first
fetch and parse — at the second. -/
theorem C8_network_errors_propagate (o1 o2 : HttpOutcome) (f : HttpFailure) :
    (http_raise o1 = some f → task1_main o1 o2 = .error (.http f))
    ∧ (∀ d1 df1, fetch_data o1 = .ok d1 → parse_to_dataframe d1 = .ok df1 →
        http_raise o2 = some f → task1_main o1 o2 = .error (.http f)) := by
  have hfetch : ∀ o : HttpOutcome, http_raise o = some f →
      fetch_data o = .error (.http f) := by
    intro o ho
    cases o with
    | connectionError =>
      simp only [http_raise, Option.some_inj] at ho
      rw [← ho]
      rfl
    | timeoutError =>
      simp only [http_raise, Option.some_inj] at ho
      rw [← ho]
      rfl
    | response st ct body =>
      rw [http_raise] at ho
      by_cases h400 : 400 ≤ st
      · rw [if_pos h400, Option.some_inj] at ho
        rw [← ho]
        simp only [fetch_data]
        rw [if_pos h400]
      · rw [if_neg h400] at ho
        cases ho
  constructor
  · intro h1
    simp only [task1_main, hfetch o1 h1]
  · intro d1 df1 h1 h2 ho2
    simp only [task1_main, h1, h2, hfetch o2 ho2]

/-- C8 witness: a connection error on the first fetch, and a 503 on the
second after a successful first fetch, each surface unchanged. -/
theorem C8_witness :
    task1_main HttpOutcome.connectionError
        (HttpOutcome.response 200 "application/json" (some apiOkData))
      = .error (.http .connectionError)
    ∧ task1_main (HttpOutcome.response 200 "application/json" (some apiOkData))
        (HttpOutcome.response 503 "text/html" none)
      = .error (.http (.status 503)) := by
  constructor
  · exact (C8_network_errors_propagate _ _ _).1 (by decide)
  · exact (C8_network_errors_propagate _ _ _).2 apiOkData [(1, 2)]
      (by decide) (by with_unfolding_all decide) (by decide)

/-! ## Claim C9 — ratio NA safety (confirmed) -/

/-- C9: at every timestamp of the union index, `ratio_abs` is NA — not an
exception and not an infinity — whenever the imbalance value is exactly 0
or missing, and otherwise equals |aFRR| / |imbalance| (NA when the aFRR
value itself is missing, by NA propagation); the result is never `±inf`.
The `Nodup` hypotheses mark the frames on which the list embedding of
`reindex` is faithful (pandas refuses duplicate index labels). -/
theorem C9_ratio_na (a b : List (Nat × ℚ))
    (ha : (a.map (fun p => p.1)).Nodup) (hb : (b.map (fun p => p.1)).Nodup)
    (t : Nat) (ht : t ∈ unionIndex a b) :
    ((lookupVal b t = none ∨ lookupVal b t = some 0) → ratioAt a b t = PVal.na)
    ∧ (∀ v : ℚ, lookupVal b t = some v → v ≠ 0 →
        ratioAt a b t = (match lookupVal a t with
          | none => PVal.na
          | some x => PVal.fin (|x| / |v|)))
    ∧ ratioAt a b t ≠ PVal.pinf ∧ ratioAt a b t ≠ PVal.ninf := by
  have part1 : (lookupVal b t = none ∨ lookupVal b t = some 0) →
      ratioAt a b t = PVal.na := by
    rintro (h | h) <;>
      cases hA : lookupVal a t <;>
        simp [ratioAt, h, hA, toP, pAbs, pReplace0, pDiv]
  have part2 : ∀ v : ℚ, lookupVal b t = some v → v ≠ 0 →
      ratioAt a b t = (match lookupVal a t with
        | none => PVal.na
        | some x => PVal.fin (|x| / |v|)) := by
    intro v hv hnz
    have habs : |v| ≠ 0 := fun hz => hnz (abs_eq_zero.1 hz)
    cases hA : lookupVal a t <;>
      simp [ratioAt, hv, hA, toP, pAbs, pReplace0, pDiv, habs]
  have notinf : ratioAt a b t ≠ PVal.pinf ∧ ratioAt a b t ≠ PVal.ninf := by
    cases hB : lookupVal b t with
    | none =>
      rw [part1 (Or.inl hB)]
      exact ⟨by simp, by simp⟩
    | some v =>
      by_cases hz : v = 0
      · rw [hz] at hB
        rw [part1 (Or.inr hB)]
        exact ⟨by simp, by simp⟩
      · rw [part2 v hB hz]
        cases hA : lookupVal a t <;> simp [hA]
  exact ⟨part1, part2, notinf.1, notinf.2⟩

/-- C9 witness: at timestamp 1 the imbalance is exactly 0 and the ratio is
NA; the hypotheses of the theorem hold for these concrete frames. -/
theorem C9_witness :
    ratioAt [(1, (5 : ℚ))] [(1, 0), (2, 3)] 1 = PVal.na :=
  (C9_ratio_na [(1, (5 : ℚ))] [(1, 0), (2, 3)] (by decide) (by decide) 1
    (by decide)).1 (Or.inr (by decide))

/-! ## Claim C10 — slack fallback details (confirmed) -/

theorem gen_list_of_length (es : List XElem) (gens : List GenRec)
    (h : gen_list_of es = .ok gens) : gens.length = es.length := by
  induction es generalizing gens with
  | nil =>
    simp only [gen_list_of, Except.ok.injEq] at h
    rw [← h]
    rfl
  | cons e t ih =>
    rw [gen_list_of] at h
    cases hr : gen_rec_of e with
    | error e' => rw [hr] at h; cases h
    | ok r =>
      rw [hr] at h
      cases hrest : gen_list_of t with
      | error e' => simp only [hrest] at h; cases h
      | ok rs =>
        simp only [hrest, Except.ok.injEq] at h
        rw [← h]
        simp [ih rs hrest]

/-- C10: (a) a generating unit whose `maxOperatingP` is absent or empty
yields a record with `max_p = 0` and no error; (b) `build_generators`
never excludes a unit (one record per `GeneratingUnit` element); (c) when
no unit is flagged as slack, the unit that comes first in document order
among those attaining the maximal `max_p` (everything before it strictly
smaller, everything after it no larger) is the recommendation. -/
theorem C10_slack_fallback (gu : XElem) (d : XDoc) (gens : List GenRec)
    (pre post : List GenRec) (g : GenRec) :
    (pyTruthyOptStr (get_element_text gu "GeneratingUnit.maxOperatingP") = false →
      ∃ r : GenRec, gen_rec_of gu = .ok r ∧ r.max_p = 0)
    ∧ (build_generators d = .ok gens →
        gens.length = (findallCim d "GeneratingUnit").length)
    ∧ (gens.any is_slack = false → gens = pre ++ g :: post →
        (∀ p ∈ pre, p.max_p < g.max_p) → (∀ q ∈ post, q.max_p ≤ g.max_p) →
        slack_recommendation gens = some g) := by
  refine ⟨?_, ?_, ?_⟩
  · intro hfalse
    refine ⟨⟨get_element_text gu "IdentifiedObject.name",
      (if pyTruthyOptStr (get_element_resource gu "GeneratingUnit.genControlSource")
        then refLastHash ((get_element_resource gu "GeneratingUnit.genControlSource").getD "")
        else "Not specified"), 0⟩, ?_, rfl⟩
    rw [gen_rec_of]
    simp [hfalse]
  · intro hb
    exact gen_list_of_length _ _ hb
  · intro hany hsplit hpre hpost
    rw [slack_recommendation, hany]
    simp only [Bool.false_eq_true, if_false]
    rw [hsplit]
    exact pyMaxBy_first (fun g' => g'.max_p) pre g post hpre hpost

/-- C10 witness: the unit without `maxOperatingP` gets capacity 0 and is
kept; with capacities (0, 700, 700) the first 700 MW unit wins the tie. -/
theorem C10_witness :
    (∃ r : GenRec, gen_rec_of (mkElem "GeneratingUnit"
        [mkChildText "IdentifiedObject.name" "NoCap",
         mkChildRes "GeneratingUnit.genControlSource" "#GeneratorControlSource.offAGC"])
      = .ok r ∧ r.max_p = 0)
    ∧ gensC10.length = (findallCim docC10w "GeneratingUnit").length
    ∧ slack_recommendation gensC10
      = some ⟨some "B1", "GeneratorControlSource.offAGC", 700⟩ := by
  have h := C10_slack_fallback
    (mkElem "GeneratingUnit"
      [mkChildText "IdentifiedObject.name" "NoCap",
       mkChildRes "GeneratingUnit.genControlSource" "#GeneratorControlSource.offAGC"])
    docC10w gensC10
    [⟨some "NoCap", "GeneratorControlSource.offAGC", 0⟩]
    [⟨some "B2", "GeneratorControlSource.offAGC", 700⟩]
    ⟨some "B1", "GeneratorControlSource.offAGC", 700⟩
  exact ⟨h.1 (by decide), h.2.1 (by decide),
    h.2.2 (by decide) (by decide) (by decide) (by decide)⟩
